import Mathlib

/-!
Verification of the batching/delivery core of the gollum log multiplexer.

We give a shallow embedding of the components the specification talks
about:

* `MessageBatch`   — the bounded, ordered message buffer (core.MessageBatch).
* `WriterAssembly` — the write/drop path coupling a sink to a formatter,
  validator and error handler (core.WriterAssembly).
* `BatchedWriterAssembly` — the composition from `components/` (src/unnamed/part_000).
* `Socket`         — the socket producer from src/producer/null.go.

Wall-clock time is modelled as a `Nat` tick counter that is passed
explicitly to every operation that reads the clock.  The network / sink
environment (dial outcome, per-connection write success, bytes read) is
passed explicitly as function arguments.  Effects that matter to the
claims (which messages were handed to the sink write path, which were
routed to the drop path, which connections were closed) are recorded in
explicit trace fields.

`core.MessageBatch` and `core.WriterAssembly` are not part of the
provided sources (only their callers are); their definitions below are
modelled from the specification and marked as such in their doc comments.
-/

/-- A message flowing through the pipeline: immutable payload plus
origin stream and ingress sequence number (spec §3). -/
structure Message where
  payload : String
  streamID : Nat
  sequence : Nat
deriving DecidableEq, Repr

/-- Modelled from the spec: `core.MessageBatch` (not under src/) — a
bounded ordered sequence of messages with capacity `maxCount`, a closed
flag, and the time of the last flush for threshold queries (spec §3, §4.1). -/
structure MessageBatch where
  maxCount : Nat
  messages : List Message
  closed : Bool
  lastFlushTime : Nat
deriving DecidableEq, Repr

/-- Errors surfaced by `Append` (spec §7 taxonomy). -/
inductive BatchError where
  | full
  | closed
deriving DecidableEq, Repr

namespace MessageBatch

/-- Modelled from the spec: `core.NewMessageBatch` — a fresh, open,
empty batch of the given capacity, created at time `now`. -/
def new (maxCount : Nat) (now : Nat) : MessageBatch :=
  { maxCount := maxCount, messages := [], closed := false, lastFlushTime := now }

/-- Modelled from the spec: `Append(msg)` — fails with `closed` once
shutdown began, with `full` at capacity (non-blocking policy); otherwise
the message acquires the next slot (spec §4.1). -/
def append (b : MessageBatch) (msg : Message) : Except BatchError MessageBatch :=
  if b.closed then .error .closed
  else if b.messages.length < b.maxCount then
    .ok { b with messages := b.messages ++ [msg] }
  else .error .full

/-- All appends of a sequence of messages, in order, stopping at the
first failure. -/
def appendAll (b : MessageBatch) (msgs : List Message) : Except BatchError MessageBatch :=
  msgs.foldlM append b

/-- Modelled from the spec: the snapshot step of `Flush(writeFn)` —
atomically take all currently buffered messages (emptying the batch for
new appends) and reset the flush timer; the caller then invokes `writeFn`
once per snapshot message in arrival order (spec §4.1). -/
def flushSnapshot (b : MessageBatch) (now : Nat) : MessageBatch × List Message :=
  ({ b with messages := [], lastFlushTime := now }, b.messages)

/-- Modelled from the spec: `Flush(writeFn)` — take the snapshot and
call `writeFn` once per message, in original arrival order, threading an
explicit effect state `σ` (spec §4.1). -/
def Flush {σ : Type} (b : MessageBatch) (writeFn : σ → Message → σ) (s : σ) (now : Nat) :
    MessageBatch × σ :=
  let (b', snapshot) := b.flushSnapshot now
  (b', snapshot.foldl writeFn s)

/-- Modelled from the spec: marking the batch closed — no further
appends are accepted, only draining is permitted (spec §3).  This is the
zero-argument `batch.Close()` used by the socket producer. -/
def close (b : MessageBatch) : MessageBatch :=
  { b with closed := true }

/-- Modelled from the spec: `Close(writeFn, timeout)` — mark the batch
closed, then behave like `Flush`; the wait for asynchronous completion
up to `timeout` is synchronous (immediate) in this model (spec §4.1). -/
def CloseWith {σ : Type} (b : MessageBatch) (writeFn : σ → Message → σ) (s : σ)
    (timeout : Nat) (now : Nat) : MessageBatch × σ :=
  let _ := timeout
  Flush b.close writeFn s now

/-- Modelled from the spec: `ReachedSizeThreshold(n)` is true iff the
number of messages appended since the last flush is ≥ n (spec §8). -/
def ReachedSizeThreshold (b : MessageBatch) (n : Nat) : Bool :=
  b.messages.length ≥ n

/-- Modelled from the spec: `ReachedTimeThreshold(d)` is true iff the
elapsed time since the last flush is ≥ d (spec §8). -/
def ReachedTimeThreshold (b : MessageBatch) (now : Nat) (d : Nat) : Bool :=
  now - b.lastFlushTime ≥ d

/-- Modelled from the spec: `IsEmpty()` (spec §4.1). -/
def IsEmpty (b : MessageBatch) : Bool :=
  b.messages.isEmpty

end MessageBatch

/-! ## BatchedWriterAssembly (src/unnamed/part_000) -/

/-- `BatchedWriterAssembly` from src/unnamed/part_000 lines 25-34.  The
`writer` field holds the currently set `BatchedWriter` sink resource;
a sink is identified by a `Nat` handle, `none` models Go's nil
interface value.  The logger is omitted (pure logging). -/
structure BatchedWriterAssembly where
  Batch : MessageBatch
  Created : Nat
  writer : Option Nat
  flushTimeout : Nat
  batchTimeout : Nat
  batchFlushCount : Nat
deriving DecidableEq, Repr

namespace BatchedWriterAssembly

/-- `NewBatchedWriterAssembly` (part_000 lines 45-55): fresh batch of
`batchMaxCount` capacity, no writer set. -/
def new (batchMaxCount : Nat) (batchTimeout : Nat) (batchFlushCount : Nat)
    (timeout : Nat) (now : Nat) : BatchedWriterAssembly :=
  { Batch := MessageBatch.new batchMaxCount now
    Created := 0
    writer := none
    flushTimeout := timeout
    batchTimeout := batchTimeout
    batchFlushCount := batchFlushCount }

/-- `HasWriter` (part_000 lines 58-60). -/
def HasWriter (bwa : BatchedWriterAssembly) : Bool :=
  bwa.writer.isSome

/-- `SetWriter` (part_000 lines 63-66): stores the writer and records
the current time in `Created`. -/
def SetWriter (bwa : BatchedWriterAssembly) (w : Nat) (now : Nat) : BatchedWriterAssembly :=
  { bwa with writer := some w, Created := now }

/-- `UnsetWriter` (part_000 lines 69-71). -/
def UnsetWriter (bwa : BatchedWriterAssembly) : BatchedWriterAssembly :=
  { bwa with writer := none }

/-- `GetWriter` (part_000 lines 81-83). -/
def GetWriter (bwa : BatchedWriterAssembly) : Option Nat :=
  bwa.writer

/-- `GetWriterAndUnset` (part_000 lines 74-78): returns the current
writer and the assembly with the writer unset. -/
def GetWriterAndUnset (bwa : BatchedWriterAssembly) : Option Nat × BatchedWriterAssembly :=
  (bwa.GetWriter, bwa.UnsetWriter)

end BatchedWriterAssembly

/-- State of a `BatchedWriterAssembly` together with the observable
effects of its `WriterAssembly`: which writer is installed in the
assembly, which messages were handed to `WriterAssembly.Write` (sink
path), which to `WriterAssembly.Flush` (format-then-discard drop path),
and which writers had `Close()` invoked on them. -/
structure BWAState where
  bwa : BatchedWriterAssembly
  assemblyWriter : Option Nat
  writeCalls : List Message
  flushCalls : List Message
  closedWriters : List Nat
deriving DecidableEq, Repr

namespace BWAState

/-- `BatchedWriterAssembly.Flush` (part_000 lines 86-93): if a writer is
set, install it into the assembly and drain the batch through
`WriterAssembly.Write`; otherwise drain through `WriterAssembly.Flush`. -/
def Flush (st : BWAState) (now : Nat) : BWAState :=
  match st.bwa.writer with
  | some w =>
    let st1 := { st with assemblyWriter := some w }
    let (b', tr) := st1.bwa.Batch.Flush (fun l m => l ++ [m]) st1.writeCalls now
    { st1 with bwa := { st1.bwa with Batch := b' }, writeCalls := tr }
  | none =>
    let (b', tr) := st.bwa.Batch.Flush (fun l m => l ++ [m]) st.flushCalls now
    { st with bwa := { st.bwa with Batch := b' }, flushCalls := tr }

/-- `BatchedWriterAssembly.Close` (part_000 lines 96-104): close the
batch through the sink write path (writer set) or the drop path
(no writer), passing the configured flush timeout; then invoke
`bwa.writer.Close()` unconditionally.  In Go a method call on a nil
interface panics, so the result is `none` (crash) when no writer is
set. -/
def Close (st : BWAState) (now : Nat) : Option BWAState :=
  let st1 :=
    match st.bwa.writer with
    | some w =>
      let s := { st with assemblyWriter := some w }
      let (b', tr) := s.bwa.Batch.CloseWith (fun l m => l ++ [m]) s.writeCalls s.bwa.flushTimeout now
      { s with bwa := { s.bwa with Batch := b' }, writeCalls := tr }
    | none =>
      let (b', tr) := st.bwa.Batch.CloseWith (fun l m => l ++ [m]) st.flushCalls st.bwa.flushTimeout now
      { st with bwa := { st.bwa with Batch := b' }, flushCalls := tr }
  match st1.bwa.writer with
  | some w => some { st1 with closedWriters := st1.closedWriters ++ [w] }
  | none => none

/-- `BatchedWriterAssembly.FlushOnTimeOut` (part_000 lines 107-111):
flush when the time threshold or the size threshold has been reached. -/
def FlushOnTimeOut (st : BWAState) (now : Nat) : BWAState :=
  if st.bwa.Batch.ReachedTimeThreshold now st.bwa.batchTimeout
      || st.bwa.Batch.ReachedSizeThreshold st.bwa.batchFlushCount then
    st.Flush now
  else
    st

end BWAState

/-! ## Socket producer (src/producer/null.go, lines 149-285) -/

/-- The `Socket` producer's own fields (null.go lines 149-161).  A
network connection is identified by a `Nat` handle; `none` models Go's
nil `net.Conn`. -/
structure SocketModel where
  connection : Option Nat
  batch : MessageBatch
  protocol : String
  address : String
  batchTimeout : Nat
  batchMaxCount : Nat
  batchFlushCount : Nat
  bufferSizeByte : Nat
  acknowledge : String
deriving DecidableEq, Repr

/-- Configuration input of `Socket.Configure` (null.go lines 172-201).
`conf.GetInt`/`GetString` lookups are modelled as `Option` fields
(`none` = key absent, use the default).  `shared.ParseAddress` is not
under src/; its output pair (address, protocol) is taken as the
configuration input directly.  `baseConfigureOk` is the outcome of
`ProducerBase.Configure`. -/
structure PluginConfig where
  baseConfigureOk : Bool
  batchMaxCount : Option Nat
  batchFlushCount : Option Nat
  batchTimeoutSec : Option Nat
  connectionBufferSizeKB : Option Nat
  acknowledge : Option String
  address : String
  protocol : String
deriving DecidableEq, Repr

namespace SocketModel

/-- `Socket.Configure` (null.go lines 172-201): propagate the base
configure error; read `BatchMaxCount` (default 8192), `BatchFlushCount`
(default maxCount/2, clamped to maxCount via `shared.MinI`),
`BatchTimeoutSec` (default 5), `ConnectionBufferSizeKB` (default 1024,
scaled to bytes), `Acknowledge` (default ""); resolve the protocol
(non-unix: tcp when an acknowledge is set, udp otherwise); create the
message batch with `batchMaxCount` capacity.  No further validation is
performed. -/
def Configure (conf : PluginConfig) : Except Unit SocketModel :=
  if !conf.baseConfigureOk then .error ()
  else
    let batchMaxCount := conf.batchMaxCount.getD 8192
    let batchFlushCount := min (conf.batchFlushCount.getD (batchMaxCount / 2)) batchMaxCount
    let batchTimeout := conf.batchTimeoutSec.getD 5
    let bufferSizeByte := (conf.connectionBufferSizeKB.getD 1024) * 1024
    let acknowledge := conf.acknowledge.getD ""
    let protocol :=
      if conf.protocol ≠ "unix" then
        if acknowledge ≠ "" then "tcp" else "udp"
      else conf.protocol
    .ok { connection := none
          batch := MessageBatch.new batchMaxCount 0
          protocol := protocol
          address := conf.address
          batchTimeout := batchTimeout
          batchMaxCount := batchMaxCount
          batchFlushCount := batchFlushCount
          bufferSizeByte := bufferSizeByte
          acknowledge := acknowledge }

/-- `Socket.validate` (null.go lines 203-215): with an empty acknowledge
string return true without touching the connection; otherwise read
`len(acknowledge)` bytes from the connection (`readResponse` is the
outcome of that read) and compare with the expected string.  The second
component counts the reads performed on the connection. -/
def validate (acknowledge : String) (readResponse : Except Unit String) : Bool × Nat :=
  if acknowledge = "" then (true, 0)
  else
    match readResponse with
    | .error _ => (false, 1)
    | .ok response => (decide (response = acknowledge), 1)

end SocketModel

/-- State of a `Socket` producer together with the observable effects
of its write path: messages delivered to the sink, individual sink
write attempts, messages rerouted via the drop path (`prod.Drop` /
`assembly.Flush`), connections that had `Close()` invoked on them, and
whether `WorkerDone()` was signalled. -/
structure SocketState where
  sock : SocketModel
  written : List Message
  writeAttempts : List Message
  dropped : List Message
  closedConns : List Nat
  workerDone : Bool
deriving DecidableEq, Repr

namespace SocketState

/-- `Socket.onWriteError` (null.go lines 217-222): log, close the
current connection and clear it (forcing a reconnect on the next
flush), and return false (the message is not considered delivered).
The handler is invoked by the assembly only during a write, which
requires a set connection; on a nil connection Go would panic, here the
state is returned unchanged. -/
def onWriteError (st : SocketState) : SocketState × Bool :=
  match st.sock.connection with
  | some c =>
    ({ st with sock := { st.sock with connection := none }
               closedConns := st.closedConns ++ [c] }, false)
  | none => (st, false)

/-- Modelled from the spec: `core.WriterAssembly.Write` (not under
src/) — format the message and write it to the current sink handle,
checking the validator; `writeOk c` is the combined write/validation
outcome on connection `c`.  On failure the error handler is invoked
and, as it reports the message undelivered, the message is rerouted via
the drop fallback (`prod.Drop`); the assembly never retries the write
itself (spec §4.2).  With no sink handle the message goes to the drop
fallback. -/
def assemblyWrite (writeOk : Nat → Bool) (st : SocketState) (msg : Message) : SocketState :=
  match st.sock.connection with
  | none => { st with dropped := st.dropped ++ [msg] }
  | some c =>
    let st1 := { st with writeAttempts := st.writeAttempts ++ [msg] }
    if writeOk c then
      { st1 with written := st1.written ++ [msg] }
    else
      let (st2, delivered) := st1.onWriteError
      if delivered then st2 else { st2 with dropped := st2.dropped ++ [msg] }

/-- Modelled from the spec: `core.WriterAssembly.Flush` (not under
src/) — the degraded drop path: format the message but discard the
encoded bytes; the message is accounted for as dropped (spec §4.2). -/
def assemblyFlush (st : SocketState) (msg : Message) : SocketState :=
  { st with dropped := st.dropped ++ [msg] }

/-- `Socket.sendBatch` (null.go lines 224-246): when no connection is
set, dial (`dial` is the outcome of `net.Dial`); on success install the
connection (and hand it to the assembly).  Then, if a connection is
set, flush the batch through `assembly.Write` when the producer is
active, and through `assembly.Flush` (drop path) otherwise. -/
def sendBatch (dial : Option Nat) (writeOk : Nat → Bool) (isActive : Bool)
    (st : SocketState) (now : Nat) : SocketState :=
  let st1 :=
    match st.sock.connection with
    | none =>
      match dial with
      | none => st
      | some c => { st with sock := { st.sock with connection := some c } }
    | some _ => st
  match st1.sock.connection with
  | none => st1
  | some _ =>
    let (b', snapshot) := st1.sock.batch.flushSnapshot now
    let st2 := { st1 with sock := { st1.sock with batch := b' } }
    if isActive then
      snapshot.foldl (assemblyWrite writeOk) st2
    else
      snapshot.foldl assemblyFlush st2

/-- `Socket.sendBatchOnTimeOut` (null.go lines 248-252). -/
def sendBatchOnTimeOut (dial : Option Nat) (writeOk : Nat → Bool) (isActive : Bool)
    (st : SocketState) (now : Nat) : SocketState :=
  if st.sock.batch.ReachedTimeThreshold now st.sock.batchTimeout
      || st.sock.batch.ReachedSizeThreshold st.sock.batchFlushCount then
    st.sendBatch dial writeOk isActive now
  else
    st

/-- Tail of `Socket.close` (null.go lines 273-278 and the deferred
block at lines 259-264): if the batch is still not empty, close it and
force-drop everything through the degraded `assembly.Flush` path
(`WaitForFlush` is synchronous in this model); finally close the
connection if one is set and signal `WorkerDone`. -/
def closeFinish (st1 : SocketState) (now : Nat) : SocketState :=
  let st2 :=
    if !st1.sock.batch.IsEmpty then
      let stc := { st1 with sock := { st1.sock with batch := st1.sock.batch.close } }
      let (b', snapshot) := stc.sock.batch.flushSnapshot now
      let std := { stc with sock := { stc.sock with batch := b' } }
      snapshot.foldl assemblyFlush std
    else st1
  let st3 :=
    match st2.sock.connection with
    | some c => { st2 with closedConns := st2.closedConns ++ [c] }
    | none => st2
  { st3 with workerDone := true }

/-- `Socket.close` (null.go lines 258-279): when the graceful phase of
`CloseGracefully(prod.sendMessage)` succeeds (`graceful`; ProducerBase
is not under src/), close the batch, send it, and wait for the flush up
to the shutdown timeout (the wait is synchronous in this model); then
run `closeFinish`. -/
def close (graceful : Bool) (dial : Option Nat) (writeOk : Nat → Bool) (isActive : Bool)
    (shutdownTimeout : Nat) (st : SocketState) (now : Nat) : SocketState :=
  let _ := shutdownTimeout
  let st1 :=
    if graceful then
      let stc := { st with sock := { st.sock with batch := st.sock.batch.close } }
      stc.sendBatch dial writeOk isActive now
    else st
  closeFinish st1 now

end SocketState

/-- Modelled from the spec: `AppendRetry(msg, trySend, isActive, onDrop)`
(core.MessageBatch, not under src/) — append; if the batch rejects the
message, poll `isActive` (the answer of the i-th poll is `isActive i`):
while active, invoke `trySend` to make room and retry; once inactive,
give up and reroute the message via `onDrop` (spec §4.1).  The retry
loop is bounded by `fuel` so the model is total; the second component
counts the `onDrop` invocations for this message. -/
def MessageBatch.appendRetry : Nat → Nat → MessageBatch → Message →
    (MessageBatch → MessageBatch) → (Nat → Bool) → MessageBatch × Nat
  | 0, poll, b, msg, _trySend, isActive =>
    (match b.append msg with
     | .ok b' => (b', 0)
     | .error _ => if isActive poll then (b, 0) else (b, 1))
  | fuel + 1, poll, b, msg, trySend, isActive =>
    (match b.append msg with
     | .ok b' => (b', 0)
     | .error _ =>
       if isActive poll then
         MessageBatch.appendRetry fuel (poll + 1) (trySend b) msg trySend isActive
       else (b, 1))

/-! ## Helper lemmas -/

/-- Folding the trace-recording write function appends the folded list. -/
theorem foldl_snoc {α : Type} (xs acc : List α) :
    xs.foldl (fun l m => l ++ [m]) acc = acc ++ xs := by
  induction xs generalizing acc with
  | nil => simp
  | cons x xs ih => simp [List.foldl_cons, ih]

/-- Appends that fit in the remaining capacity of an open batch all
succeed and extend the buffer in order. -/
theorem appendAll_ok (msgs : List Message) :
    ∀ b : MessageBatch, b.closed = false →
      b.messages.length + msgs.length ≤ b.maxCount →
      b.appendAll msgs = .ok { b with messages := b.messages ++ msgs } := by
  induction msgs with
  | nil => intro b _ _; simp only [List.append_nil]; rfl
  | cons m rest ih =>
    intro b hopen hcap
    have hlt : b.messages.length < b.maxCount := by
      simp only [List.length_cons] at hcap; omega
    have hstep : b.append m = .ok { b with messages := b.messages ++ [m] } := by
      simp [MessageBatch.append, hopen, hlt]
    have := ih { b with messages := b.messages ++ [m] } (by simp [hopen])
      (by simp only [List.length_append, List.length_singleton]
          simp only [List.length_cons] at hcap; omega)
    simp only [MessageBatch.appendAll, List.foldlM] at this ⊢
    simp only [List.append_assoc, List.singleton_append] at this
    rw [hstep]
    exact this

/-- Folding the degraded drop path reroutes every folded message, in
order, and changes nothing else. -/
theorem foldl_assemblyFlush (msgs : List Message) :
    ∀ st : SocketState,
      msgs.foldl SocketState.assemblyFlush st = { st with dropped := st.dropped ++ msgs } := by
  induction msgs with
  | nil => intro st; simp
  | cons m rest ih =>
    intro st
    simp only [List.foldl_cons]
    rw [ih]
    simp [SocketState.assemblyFlush]

/-- With no connection set, the assembly write path reroutes every
folded message to the drop fallback and changes nothing else. -/
theorem foldl_assemblyWrite_none (writeOk : Nat → Bool) (msgs : List Message) :
    ∀ st : SocketState, st.sock.connection = none →
      msgs.foldl (SocketState.assemblyWrite writeOk) st = { st with dropped := st.dropped ++ msgs } := by
  induction msgs with
  | nil => intro st _; simp
  | cons m rest ih =>
    intro st hnone
    simp only [List.foldl_cons]
    have hstep : SocketState.assemblyWrite writeOk st m = { st with dropped := st.dropped ++ [m] } := by
      simp [SocketState.assemblyWrite, hnone]
    rw [hstep, ih _ (by simpa using hnone)]
    simp

/-- During one fold of the assembly write path, the sink write attempts
grow by an initial segment of the folded messages: every message is
attempted at most once, in order, and no message is attempted again
after the first failure. -/
theorem foldl_assemblyWrite_attempts (writeOk : Nat → Bool) (msgs : List Message) :
    ∀ st : SocketState, ∃ k, k ≤ msgs.length ∧
      (msgs.foldl (SocketState.assemblyWrite writeOk) st).writeAttempts
        = st.writeAttempts ++ msgs.take k := by
  induction msgs with
  | nil => intro st; exact ⟨0, by simp⟩
  | cons m rest ih =>
    intro st
    match hc : st.sock.connection with
    | none =>
      refine ⟨0, by simp, ?_⟩
      rw [foldl_assemblyWrite_none writeOk (m :: rest) st hc]
      simp
    | some c =>
      by_cases hok : writeOk c = true
      · have hstep : SocketState.assemblyWrite writeOk st m
            = { st with writeAttempts := st.writeAttempts ++ [m], written := st.written ++ [m] } := by
          simp [SocketState.assemblyWrite, hc, hok]
        obtain ⟨k, hk, hattempts⟩ :=
          ih { st with writeAttempts := st.writeAttempts ++ [m], written := st.written ++ [m] }
        refine ⟨k + 1, by simp; omega, ?_⟩
        simp only [List.foldl_cons, hstep]
        rw [hattempts]
        simp
      · have hstep : SocketState.assemblyWrite writeOk st m
            = { st with sock := { st.sock with connection := none }
                        writeAttempts := st.writeAttempts ++ [m]
                        closedConns := st.closedConns ++ [c]
                        dropped := st.dropped ++ [m] } := by
          simp [SocketState.assemblyWrite, hc, hok, SocketState.onWriteError]
        refine ⟨1, by simp, ?_⟩
        simp only [List.foldl_cons, hstep]
        rw [foldl_assemblyWrite_none writeOk rest _ (by simp)]
        simp

/-- One-step unfolding of the bounded retry loop. -/
theorem appendRetry_eq (fuel poll : Nat) (b : MessageBatch) (msg : Message)
    (trySend : MessageBatch → MessageBatch) (isActive : Nat → Bool) :
    MessageBatch.appendRetry fuel poll b msg trySend isActive =
      match b.append msg with
      | .ok b' => (b', 0)
      | .error _ =>
        if isActive poll then
          match fuel with
          | 0 => (b, 0)
          | fuel' + 1 => MessageBatch.appendRetry fuel' (poll + 1) (trySend b) msg trySend isActive
        else
          (b, 1) := by
  cases fuel <;> rfl

/-! ## Claim theorems -/

/-- C1: for every sequence of successful appends not exceeding the
batch capacity, a subsequent `Flush(writeFn)` invokes `writeFn` once per
buffered message, in exactly the slot-acquisition order (FIFO within
one flush snapshot); a successful `AppendRetry` acquires its slot
exactly like `Append`. -/
theorem batch_append_flush_fifo (b : MessageBatch) (msgs : List Message) (now : Nat)
    (hopen : b.closed = false)
    (hcap : b.messages.length + msgs.length ≤ b.maxCount) :
    (∃ b', b.appendAll msgs = .ok b' ∧
      (b'.Flush (fun l m => l ++ [m]) ([] : List Message) now).2 = b.messages ++ msgs) ∧
    (∀ fuel poll trySend isActive b₀ b₁ (msg : Message), MessageBatch.append b₀ msg = .ok b₁ →
      MessageBatch.appendRetry fuel poll b₀ msg trySend isActive = (b₁, 0)) := by
  constructor
  · refine ⟨_, appendAll_ok msgs b hopen hcap, ?_⟩
    simp [MessageBatch.Flush, MessageBatch.flushSnapshot, foldl_snoc]
  · intro fuel poll trySend isActive b₀ b₁ msg h
    rw [appendRetry_eq]
    simp [h]

/-- C1 witness: three appends into a fresh batch of capacity 4 flush in
append order, and a successful retry-append acquires its slot. -/
theorem batch_append_flush_fifo_witness :
    (∃ b', (MessageBatch.new 4 0).appendAll
        [⟨"a", 0, 0⟩, ⟨"b", 0, 1⟩, ⟨"c", 0, 2⟩] = .ok b' ∧
      (b'.Flush (fun l m => l ++ [m]) ([] : List Message) 9).2
        = [] ++ [⟨"a", 0, 0⟩, ⟨"b", 0, 1⟩, ⟨"c", 0, 2⟩]) ∧
    (∀ fuel poll trySend isActive b₀ b₁ (msg : Message), MessageBatch.append b₀ msg = .ok b₁ →
      MessageBatch.appendRetry fuel poll b₀ msg trySend isActive = (b₁, 0)) :=
  batch_append_flush_fifo (MessageBatch.new 4 0)
    [⟨"a", 0, 0⟩, ⟨"b", 0, 1⟩, ⟨"c", 0, 2⟩] 9 (by decide) (by decide)

/-- C6: under a full batch with `isActive` answering false, a retried
append reroutes the message via `onDrop` exactly once and terminates
immediately (the model is a total function, so no call blocks). -/
theorem appendRetry_inactive_drops_once (fuel poll : Nat) (b : MessageBatch) (msg : Message)
    (trySend : MessageBatch → MessageBatch) (isActive : Nat → Bool)
    (hfull : b.maxCount ≤ b.messages.length)
    (hinactive : ∀ i, isActive i = false) :
    MessageBatch.appendRetry fuel poll b msg trySend isActive = (b, 1) := by
  have hnl : ¬ b.messages.length < b.maxCount := by omega
  rw [appendRetry_eq]
  by_cases hc : b.closed = true
  · simp [MessageBatch.append, hc, hnl, hinactive poll]
  · simp [MessageBatch.append, hc, hnl, hinactive poll]

/-- C6 witness: a full two-slot batch with an inactive producer drops
the retried message exactly once. -/
theorem appendRetry_inactive_drops_once_witness :
    MessageBatch.appendRetry 5 0
      { maxCount := 2, messages := [⟨"a", 0, 0⟩, ⟨"b", 0, 1⟩], closed := false, lastFlushTime := 0 }
      ⟨"c", 0, 2⟩ id (fun _ => false)
    = ({ maxCount := 2, messages := [⟨"a", 0, 0⟩, ⟨"b", 0, 1⟩], closed := false, lastFlushTime := 0 }, 1) :=
  appendRetry_inactive_drops_once 5 0
    { maxCount := 2, messages := [⟨"a", 0, 0⟩, ⟨"b", 0, 1⟩], closed := false, lastFlushTime := 0 }
    ⟨"c", 0, 2⟩ id (fun _ => false) (by decide) (fun _ => rfl)

/-- C9: with an empty acknowledge string, validation succeeds without
any read from the connection; with a non-empty acknowledge string,
exactly one read is performed and validation succeeds iff the bytes
read equal the expected acknowledge string. -/
theorem socket_validate_ack (acknowledge : String) (readResponse : Except Unit String) :
    (acknowledge = "" → SocketModel.validate acknowledge readResponse = (true, 0)) ∧
    (acknowledge ≠ "" →
      (SocketModel.validate acknowledge readResponse).2 = 1 ∧
      ((SocketModel.validate acknowledge readResponse).1 = true ↔ readResponse = .ok acknowledge)) := by
  constructor
  · intro h
    simp [SocketModel.validate, h]
  · intro h
    match readResponse with
    | .error e => simp [SocketModel.validate, h]
    | .ok r => simp [SocketModel.validate, h]

/-- C9 witness: acknowledge "OK" with matching read succeeds after one
read; the empty acknowledge is fire-and-forget. -/
theorem socket_validate_ack_witness :
    ((SocketModel.validate "OK" (.ok "OK")).2 = 1 ∧
      ((SocketModel.validate "OK" (.ok "OK")).1 = true ↔ (.ok "OK" : Except Unit String) = .ok "OK")) ∧
    SocketModel.validate "" (.ok "whatever") = (true, 0) :=
  ⟨(socket_validate_ack "OK" (.ok "OK")).2 (by decide),
   (socket_validate_ack "" (.ok "whatever")).1 rfl⟩

/-- C10: `SetWriter` stores the writer and stamps `Created` with the
current time, leaving every other field unchanged; `UnsetWriter` and
`GetWriterAndUnset` clear only the writer field (afterwards `HasWriter`
is false, and `GetWriterAndUnset` returned the previously set writer),
leaving `Created`, the batch contents and all other fields unchanged. -/
theorem bwa_writer_frame (bwa : BatchedWriterAssembly) (w : Nat) (t : Nat) :
    ((bwa.SetWriter w t).writer = some w ∧
     (bwa.SetWriter w t).Created = t ∧
     (bwa.SetWriter w t).HasWriter = true ∧
     (bwa.SetWriter w t).Batch = bwa.Batch ∧
     (bwa.SetWriter w t).flushTimeout = bwa.flushTimeout ∧
     (bwa.SetWriter w t).batchTimeout = bwa.batchTimeout ∧
     (bwa.SetWriter w t).batchFlushCount = bwa.batchFlushCount) ∧
    (bwa.UnsetWriter.writer = none ∧
     bwa.UnsetWriter.HasWriter = false ∧
     bwa.UnsetWriter.Batch = bwa.Batch ∧
     bwa.UnsetWriter.Created = bwa.Created ∧
     bwa.UnsetWriter.flushTimeout = bwa.flushTimeout ∧
     bwa.UnsetWriter.batchTimeout = bwa.batchTimeout ∧
     bwa.UnsetWriter.batchFlushCount = bwa.batchFlushCount) ∧
    (bwa.GetWriterAndUnset.1 = bwa.writer ∧
     bwa.GetWriterAndUnset.2 = bwa.UnsetWriter ∧
     (bwa.SetWriter w t).GetWriterAndUnset.1 = some w ∧
     (bwa.SetWriter w t).GetWriterAndUnset.2.HasWriter = false) :=
  ⟨⟨rfl, rfl, rfl, rfl, rfl, rfl, rfl⟩,
   ⟨rfl, rfl, rfl, rfl, rfl, rfl, rfl⟩,
   ⟨rfl, rfl, rfl, rfl⟩⟩

/-- C4: `FlushOnTimeOut` triggers a flush iff the time threshold
(elapsed time since the last flush ≥ batchTimeout) or the size
threshold (messages since the last flush ≥ batchFlushCount) has been
reached; otherwise it performs no flush and the state, in particular
the batch, is unchanged. -/
theorem bwa_flushOnTimeOut_iff_threshold (st : BWAState) (now : Nat) :
    ((st.bwa.batchTimeout ≤ now - st.bwa.Batch.lastFlushTime ∨
        st.bwa.batchFlushCount ≤ st.bwa.Batch.messages.length) →
      st.FlushOnTimeOut now = st.Flush now) ∧
    (¬(st.bwa.batchTimeout ≤ now - st.bwa.Batch.lastFlushTime ∨
        st.bwa.batchFlushCount ≤ st.bwa.Batch.messages.length) →
      st.FlushOnTimeOut now = st) := by
  constructor
  · intro h
    have hc : (st.bwa.Batch.ReachedTimeThreshold now st.bwa.batchTimeout
        || st.bwa.Batch.ReachedSizeThreshold st.bwa.batchFlushCount) = true := by
      simp only [MessageBatch.ReachedTimeThreshold, MessageBatch.ReachedSizeThreshold,
        Bool.or_eq_true, decide_eq_true_eq, ge_iff_le]
      exact h
    simp [BWAState.FlushOnTimeOut, hc]
  · intro h
    have hc : (st.bwa.Batch.ReachedTimeThreshold now st.bwa.batchTimeout
        || st.bwa.Batch.ReachedSizeThreshold st.bwa.batchFlushCount) = false := by
      simp only [MessageBatch.ReachedTimeThreshold, MessageBatch.ReachedSizeThreshold,
        Bool.or_eq_false_iff, decide_eq_false_iff_not, ge_iff_le]
      exact ⟨fun hx => h (Or.inl hx), fun hx => h (Or.inr hx)⟩
    simp [BWAState.FlushOnTimeOut, hc]

/-- C4 witness: with batchTimeout 5 and batchFlushCount 2, a batch last
flushed at time 0 holding one message neither flushes at time 3 (no
threshold reached) nor stays put at time 6 (time threshold reached). -/
theorem bwa_flushOnTimeOut_iff_threshold_witness :
    (BWAState.FlushOnTimeOut
      { bwa := { Batch := { maxCount := 8, messages := [⟨"a", 0, 0⟩], closed := false, lastFlushTime := 0 }
                 Created := 0, writer := none, flushTimeout := 3, batchTimeout := 5, batchFlushCount := 2 }
        assemblyWriter := none, writeCalls := [], flushCalls := [], closedWriters := [] } 3
      = { bwa := { Batch := { maxCount := 8, messages := [⟨"a", 0, 0⟩], closed := false, lastFlushTime := 0 }
                   Created := 0, writer := none, flushTimeout := 3, batchTimeout := 5, batchFlushCount := 2 }
          assemblyWriter := none, writeCalls := [], flushCalls := [], closedWriters := [] }) ∧
    (BWAState.FlushOnTimeOut
      { bwa := { Batch := { maxCount := 8, messages := [⟨"a", 0, 0⟩], closed := false, lastFlushTime := 0 }
                 Created := 0, writer := none, flushTimeout := 3, batchTimeout := 5, batchFlushCount := 2 }
        assemblyWriter := none, writeCalls := [], flushCalls := [], closedWriters := [] } 6
      = BWAState.Flush
        { bwa := { Batch := { maxCount := 8, messages := [⟨"a", 0, 0⟩], closed := false, lastFlushTime := 0 }
                   Created := 0, writer := none, flushTimeout := 3, batchTimeout := 5, batchFlushCount := 2 }
          assemblyWriter := none, writeCalls := [], flushCalls := [], closedWriters := [] } 6) :=
  ⟨(bwa_flushOnTimeOut_iff_threshold _ 3).2 (by decide),
   (bwa_flushOnTimeOut_iff_threshold _ 6).1 (by decide)⟩

/-- C5: `BatchedWriterAssembly.Flush` drains the batch through
`WriterAssembly.Write` (after installing the current sink into the
assembly) when a writer is set, and through `WriterAssembly.Flush`
(the formatting-then-discard drop path) when no writer is set; in both
cases the batch buffer is left empty. -/
theorem bwa_flush_routes_and_drains (st : BWAState) (now : Nat) :
    (∀ w, st.bwa.writer = some w →
      st.Flush now = { st with
        assemblyWriter := some w
        bwa := { st.bwa with Batch := { st.bwa.Batch with messages := [], lastFlushTime := now } }
        writeCalls := st.writeCalls ++ st.bwa.Batch.messages }) ∧
    (st.bwa.writer = none →
      st.Flush now = { st with
        bwa := { st.bwa with Batch := { st.bwa.Batch with messages := [], lastFlushTime := now } }
        flushCalls := st.flushCalls ++ st.bwa.Batch.messages }) := by
  constructor
  · intro w hw
    simp [BWAState.Flush, hw, MessageBatch.Flush, MessageBatch.flushSnapshot, foldl_snoc]
  · intro hw
    simp [BWAState.Flush, hw, MessageBatch.Flush, MessageBatch.flushSnapshot, foldl_snoc]

/-- C5 witness: with a writer set, a two-message batch drains through
the sink write path; with no writer, through the drop path. -/
theorem bwa_flush_routes_and_drains_witness :
    (BWAState.Flush
      { bwa := { Batch := { maxCount := 4, messages := [⟨"a", 0, 0⟩, ⟨"b", 0, 1⟩], closed := false, lastFlushTime := 0 }
                 Created := 0, writer := some 11, flushTimeout := 3, batchTimeout := 5, batchFlushCount := 2 }
        assemblyWriter := none, writeCalls := [], flushCalls := [], closedWriters := [] } 8
      = { bwa := { Batch := { maxCount := 4, messages := [], closed := false, lastFlushTime := 8 }
                   Created := 0, writer := some 11, flushTimeout := 3, batchTimeout := 5, batchFlushCount := 2 }
          assemblyWriter := some 11, writeCalls := [] ++ [⟨"a", 0, 0⟩, ⟨"b", 0, 1⟩], flushCalls := [], closedWriters := [] }) ∧
    (BWAState.Flush
      { bwa := { Batch := { maxCount := 4, messages := [⟨"a", 0, 0⟩, ⟨"b", 0, 1⟩], closed := false, lastFlushTime := 0 }
                 Created := 0, writer := none, flushTimeout := 3, batchTimeout := 5, batchFlushCount := 2 }
        assemblyWriter := none, writeCalls := [], flushCalls := [], closedWriters := [] } 8
      = { bwa := { Batch := { maxCount := 4, messages := [], closed := false, lastFlushTime := 8 }
                   Created := 0, writer := none, flushTimeout := 3, batchTimeout := 5, batchFlushCount := 2 }
          assemblyWriter := none, writeCalls := [], flushCalls := [] ++ [⟨"a", 0, 0⟩, ⟨"b", 0, 1⟩], closedWriters := [] }) :=
  ⟨(bwa_flush_routes_and_drains _ 8).1 11 rfl,
   (bwa_flush_routes_and_drains _ 8).2 rfl⟩

/-- C2 (amended): `Close()` first closes the batch with the configured
flush timeout — through the sink write path when a writer is set, and
through the drop path otherwise — and then invokes `Close()` on the
writer unconditionally; when a writer is set the sink resource is
released, but when the writer was already cleared the unconditional
`bwa.writer.Close()` dereferences a nil interface and crashes (`none`). -/
theorem bwa_close_batch_then_writer (st : BWAState) (now : Nat) :
    (∀ w, st.bwa.writer = some w →
      st.Close now = some { st with
        assemblyWriter := some w
        bwa := { st.bwa with
          Batch := { st.bwa.Batch with messages := [], closed := true, lastFlushTime := now } }
        writeCalls := st.writeCalls ++ st.bwa.Batch.messages
        closedWriters := st.closedWriters ++ [w] }) ∧
    (st.bwa.writer = none → st.Close now = none) := by
  constructor
  · intro w hw
    simp [BWAState.Close, hw, MessageBatch.CloseWith, MessageBatch.Flush,
      MessageBatch.flushSnapshot, MessageBatch.close, foldl_snoc]
  · intro hw
    simp [BWAState.Close, hw]

/-- C2 witness: with writer 7 set and one buffered message, `Close()`
drains the batch through the sink write path and releases writer 7. -/
theorem bwa_close_batch_then_writer_witness :
    BWAState.Close
      { bwa := { Batch := { maxCount := 4, messages := [⟨"a", 0, 0⟩], closed := false, lastFlushTime := 0 }
                 Created := 0, writer := some 7, flushTimeout := 3, batchTimeout := 5, batchFlushCount := 2 }
        assemblyWriter := none, writeCalls := [], flushCalls := [], closedWriters := [] } 9
    = some
      { bwa := { Batch := { maxCount := 4, messages := [], closed := true, lastFlushTime := 9 }
                 Created := 0, writer := some 7, flushTimeout := 3, batchTimeout := 5, batchFlushCount := 2 }
        assemblyWriter := some 7, writeCalls := [] ++ [⟨"a", 0, 0⟩], flushCalls := [], closedWriters := [] ++ [7] } :=
  (bwa_close_batch_then_writer _ 9).1 7 rfl

/-- C2 counterexample: on a state whose writer has already been cleared
(`UnsetWriter`), `Close()` does not release the sink without error or
crash as claimed — the unconditional `bwa.writer.Close()` hits a nil
interface and panics, modelled as result `none`. -/
theorem bwa_close_unset_writer_crashes :
    BWAState.Close
      { bwa := BatchedWriterAssembly.UnsetWriter
          { Batch := { maxCount := 4, messages := [⟨"a", 0, 0⟩], closed := false, lastFlushTime := 0 }
            Created := 0, writer := some 7, flushTimeout := 3, batchTimeout := 5, batchFlushCount := 2 }
        assemblyWriter := none, writeCalls := [], flushCalls := [], closedWriters := [] } 9 = none := rfl

/-- C8 (amended): `Configure` propagates only the base configure error;
the batch-count settings are never validated — `BatchFlushCount` is
clamped to `BatchMaxCount` and any capacity, including zero, is
accepted, the batch being created with exactly that capacity. -/
theorem socket_configure_clamp_no_validation (conf : PluginConfig) :
    (conf.baseConfigureOk = false → SocketModel.Configure conf = .error ()) ∧
    (conf.baseConfigureOk = true → ∃ s, SocketModel.Configure conf = .ok s ∧
      s.batchMaxCount = conf.batchMaxCount.getD 8192 ∧
      s.batchFlushCount = min (conf.batchFlushCount.getD (conf.batchMaxCount.getD 8192 / 2))
        (conf.batchMaxCount.getD 8192) ∧
      s.batch = MessageBatch.new (conf.batchMaxCount.getD 8192) 0) := by
  constructor
  · intro h
    simp [SocketModel.Configure, h]
  · intro h
    simp only [SocketModel.Configure, h, Bool.not_true, Bool.false_eq_true, if_false]
    exact ⟨_, rfl, rfl, rfl, rfl⟩

/-- C8 counterexample: a configuration with `BatchMaxCount: 0` is not
rejected — `Configure` succeeds and builds a zero-capacity batch, so
the producer proceeds towards `Active` with an unusable batch. -/
theorem socket_configure_accepts_zero_capacity :
    (SocketModel.Configure
      { baseConfigureOk := true, batchMaxCount := some 0, batchFlushCount := none,
        batchTimeoutSec := none, connectionBufferSizeKB := none, acknowledge := none,
        address := ":5880", protocol := "udp" }).toOption.map (fun s => s.batch.maxCount)
      = some 0 := rfl

/-- The tail of `Socket.close` always signals `WorkerDone`, always
leaves the batch empty, and force-drops every message still buffered on
entry through the degraded drop path. -/
theorem closeFinish_spec (A : SocketState) (now : Nat) :
    (A.closeFinish now).workerDone = true ∧
    (A.closeFinish now).sock.batch.messages = [] ∧
    (A.sock.batch.IsEmpty = false →
      (A.closeFinish now).dropped = A.dropped ++ A.sock.batch.messages) := by
  cases he : A.sock.batch.IsEmpty with
  | true =>
    have hm : A.sock.batch.messages = [] := by
      simpa [MessageBatch.IsEmpty] using he
    unfold SocketState.closeFinish
    rw [he]
    cases hc : A.sock.connection <;> simp [hc, hm]
  | false =>
    unfold SocketState.closeFinish
    rw [he]
    simp only [Bool.not_false, if_true, MessageBatch.flushSnapshot, MessageBatch.close]
    rw [foldl_assemblyFlush]
    cases hc : A.sock.connection <;> simp [hc]

/-- C3: during producer shutdown, after the graceful flush attempt
(whose outcome is `st1`), everything still buffered is force-dropped
through the degraded `assembly.Flush` path rather than left buffered,
and the producer signals `WorkerDone` — for every shutdown timeout,
including 0 (the model is a total function, so `close` always
returns). -/
theorem socket_close_drains_and_stops (graceful : Bool) (dial : Option Nat)
    (writeOk : Nat → Bool) (isActive : Bool) (shutdownTimeout : Nat)
    (st : SocketState) (now : Nat) (st1 : SocketState)
    (hst1 : st1 = if graceful then
        SocketState.sendBatch dial writeOk isActive
          { st with sock := { st.sock with batch := st.sock.batch.close } } now
      else st) :
    (SocketState.close graceful dial writeOk isActive shutdownTimeout st now).workerDone = true ∧
    (SocketState.close graceful dial writeOk isActive shutdownTimeout st now).sock.batch.messages = [] ∧
    (st1.sock.batch.IsEmpty = false →
      (SocketState.close graceful dial writeOk isActive shutdownTimeout st now).dropped
        = st1.dropped ++ st1.sock.batch.messages) := by
  have hclose : SocketState.close graceful dial writeOk isActive shutdownTimeout st now
      = st1.closeFinish now := by
    rw [hst1]; rfl
  rw [hclose]
  exact closeFinish_spec st1 now

/-- C3 witness: shutdown with three messages buffered, no reachable
sink (no connection, dial fails), and shutdown timeout 0: all three are
force-dropped via the degraded path and `WorkerDone` is signalled. -/
theorem socket_close_drains_and_stops_witness :
    (SocketState.close true none (fun _ => true) true 0
      { sock := { connection := none
                  batch := { maxCount := 16, messages := [⟨"a", 0, 0⟩, ⟨"b", 0, 1⟩, ⟨"c", 0, 2⟩], closed := false, lastFlushTime := 0 }
                  protocol := "udp", address := ":5880", batchTimeout := 5, batchMaxCount := 16
                  batchFlushCount := 8, bufferSizeByte := 1048576, acknowledge := "" }
        written := [], writeAttempts := [], dropped := [], closedConns := [], workerDone := false } 4).workerDone = true ∧
    (SocketState.close true none (fun _ => true) true 0
      { sock := { connection := none
                  batch := { maxCount := 16, messages := [⟨"a", 0, 0⟩, ⟨"b", 0, 1⟩, ⟨"c", 0, 2⟩], closed := false, lastFlushTime := 0 }
                  protocol := "udp", address := ":5880", batchTimeout := 5, batchMaxCount := 16
                  batchFlushCount := 8, bufferSizeByte := 1048576, acknowledge := "" }
        written := [], writeAttempts := [], dropped := [], closedConns := [], workerDone := false } 4).sock.batch.messages = [] ∧
    (SocketState.close true none (fun _ => true) true 0
      { sock := { connection := none
                  batch := { maxCount := 16, messages := [⟨"a", 0, 0⟩, ⟨"b", 0, 1⟩, ⟨"c", 0, 2⟩], closed := false, lastFlushTime := 0 }
                  protocol := "udp", address := ":5880", batchTimeout := 5, batchMaxCount := 16
                  batchFlushCount := 8, bufferSizeByte := 1048576, acknowledge := "" }
        written := [], writeAttempts := [], dropped := [], closedConns := [], workerDone := false } 4).dropped
      = [] ++ [⟨"a", 0, 0⟩, ⟨"b", 0, 1⟩, ⟨"c", 0, 2⟩] := by
  have h := socket_close_drains_and_stops true none (fun _ => true) true 0
    { sock := { connection := none
                batch := { maxCount := 16, messages := [⟨"a", 0, 0⟩, ⟨"b", 0, 1⟩, ⟨"c", 0, 2⟩], closed := false, lastFlushTime := 0 }
                protocol := "udp", address := ":5880", batchTimeout := 5, batchMaxCount := 16
                batchFlushCount := 8, bufferSizeByte := 1048576, acknowledge := "" }
      written := [], writeAttempts := [], dropped := [], closedConns := [], workerDone := false } 4
    { sock := { connection := none
                batch := { maxCount := 16, messages := [⟨"a", 0, 0⟩, ⟨"b", 0, 1⟩, ⟨"c", 0, 2⟩], closed := true, lastFlushTime := 0 }
                protocol := "udp", address := ":5880", batchTimeout := 5, batchMaxCount := 16
                batchFlushCount := 8, bufferSizeByte := 1048576, acknowledge := "" }
      written := [], writeAttempts := [], dropped := [], closedConns := [], workerDone := false }
    (by rfl)
  exact ⟨h.1, h.2.1, h.2.2 (by rfl)⟩

/-- `sendBatch` unfolding: with no connection and a failing dial,
nothing happens — the batch stays as it is, to be retried at the next
scheduled flush. -/
theorem sendBatch_no_conn_no_dial (writeOk : Nat → Bool) (isActive : Bool)
    (st : SocketState) (now : Nat) (hc : st.sock.connection = none) :
    SocketState.sendBatch none writeOk isActive st now = st := by
  simp [SocketState.sendBatch, hc]

/-- `sendBatch` unfolding: with a connection set, the batch snapshot is
folded through the assembly write path (active) or the drop path
(inactive). -/
theorem sendBatch_with_conn (dial : Option Nat) (writeOk : Nat → Bool) (isActive : Bool)
    (st : SocketState) (now : Nat) (c : Nat) (hc : st.sock.connection = some c) :
    SocketState.sendBatch dial writeOk isActive st now
      = List.foldl
          (if isActive then SocketState.assemblyWrite writeOk else SocketState.assemblyFlush)
          { st with sock := { st.sock with
              batch := { st.sock.batch with messages := [], lastFlushTime := now } } }
          st.sock.batch.messages := by
  cases isActive <;>
    simp [SocketState.sendBatch, hc, MessageBatch.flushSnapshot]

/-- `sendBatch` unfolding: with no connection and a successful dial,
the new connection is installed and the batch snapshot is folded
through the assembly write path (active) or the drop path (inactive). -/
theorem sendBatch_reconnect (writeOk : Nat → Bool) (isActive : Bool)
    (st : SocketState) (now : Nat) (c' : Nat) (hc : st.sock.connection = none) :
    SocketState.sendBatch (some c') writeOk isActive st now
      = List.foldl
          (if isActive then SocketState.assemblyWrite writeOk else SocketState.assemblyFlush)
          { st with sock := { st.sock with
              connection := some c'
              batch := { st.sock.batch with messages := [], lastFlushTime := now } } }
          st.sock.batch.messages := by
  cases isActive <;>
    simp [SocketState.sendBatch, hc, MessageBatch.flushSnapshot]

/-- Across one `sendBatch`, the sink write attempts grow by an initial
segment of the buffered messages: no message is written twice. -/
theorem sendBatch_attempts (dial : Option Nat) (writeOk : Nat → Bool) (isActive : Bool)
    (st : SocketState) (now : Nat) :
    ∃ k, k ≤ st.sock.batch.messages.length ∧
      (SocketState.sendBatch dial writeOk isActive st now).writeAttempts
        = st.writeAttempts ++ st.sock.batch.messages.take k := by
  cases hc : st.sock.connection with
  | none =>
    cases dial with
    | none =>
      refine ⟨0, Nat.zero_le _, ?_⟩
      rw [sendBatch_no_conn_no_dial writeOk isActive st now hc]
      simp
    | some c' =>
      rw [sendBatch_reconnect writeOk isActive st now c' hc]
      cases isActive with
      | false =>
        refine ⟨0, Nat.zero_le _, ?_⟩
        simp only [Bool.false_eq_true, if_false]
        rw [foldl_assemblyFlush]
        simp
      | true =>
        simp only [if_true]
        obtain ⟨k, hk, h⟩ := foldl_assemblyWrite_attempts writeOk st.sock.batch.messages
          { st with sock := { st.sock with
              connection := some c'
              batch := { st.sock.batch with messages := [], lastFlushTime := now } } }
        exact ⟨k, hk, h⟩
  | some c =>
    rw [sendBatch_with_conn dial writeOk isActive st now c hc]
    cases isActive with
    | false =>
      refine ⟨0, Nat.zero_le _, ?_⟩
      simp only [Bool.false_eq_true, if_false]
      rw [foldl_assemblyFlush]
      simp
    | true =>
      simp only [if_true]
      obtain ⟨k, hk, h⟩ := foldl_assemblyWrite_attempts writeOk st.sock.batch.messages
        { st with sock := { st.sock with
            batch := { st.sock.batch with messages := [], lastFlushTime := now } } }
      exact ⟨k, hk, h⟩

/-- C7: when a write to the sink fails, `onWriteError` closes the
current connection and clears it — forcing a reconnect on the next
flush — and reports failure to the batch; within one flush no message
is handed to the sink more than once (the write-attempt trace grows by
an initial segment of the snapshot), and the only retry is the next
`sendBatch`, which dials anew when the connection has been cleared. -/
theorem socket_write_error_invalidates_no_retry (st : SocketState) (c : Nat) (dial : Option Nat)
    (writeOk : Nat → Bool) (isActive : Bool) (now : Nat) :
    (st.sock.connection = some c →
      st.onWriteError = ({ st with
        sock := { st.sock with connection := none }
        closedConns := st.closedConns ++ [c] }, false)) ∧
    (∃ k, k ≤ st.sock.batch.messages.length ∧
      (SocketState.sendBatch dial writeOk isActive st now).writeAttempts
        = st.writeAttempts ++ st.sock.batch.messages.take k) ∧
    (st.sock.connection = none → dial = none →
      SocketState.sendBatch dial writeOk isActive st now = st) ∧
    (∀ c', st.sock.connection = none → dial = some c' →
      SocketState.sendBatch dial writeOk isActive st now
        = List.foldl
            (if isActive then SocketState.assemblyWrite writeOk else SocketState.assemblyFlush)
            { st with sock := { st.sock with
                connection := some c'
                batch := { st.sock.batch with messages := [], lastFlushTime := now } } }
            st.sock.batch.messages) := by
  refine ⟨?_, sendBatch_attempts dial writeOk isActive st now, ?_, ?_⟩
  · intro hc
    simp [SocketState.onWriteError, hc]
  · intro hc hd
    subst hd
    exact sendBatch_no_conn_no_dial writeOk isActive st now hc
  · intro c' hc hd
    subst hd
    exact sendBatch_reconnect writeOk isActive st now c' hc

/-- C7 witness: with connection 3 set, a failed write closes and clears
the connection and reports failure; attempts grow by an initial segment
of the two buffered messages; with the connection cleared, a failing
dial leaves everything untouched and a successful dial to connection 9
reopens the sink for the flush. -/
theorem socket_write_error_invalidates_no_retry_witness :
    SocketState.onWriteError
      { sock := { connection := some 3
                  batch := { maxCount := 8, messages := [⟨"a", 0, 0⟩, ⟨"b", 0, 1⟩], closed := false, lastFlushTime := 0 }
                  protocol := "tcp", address := ":5880", batchTimeout := 5, batchMaxCount := 8
                  batchFlushCount := 4, bufferSizeByte := 1024, acknowledge := "OK" }
        written := [], writeAttempts := [], dropped := [], closedConns := [], workerDone := false }
      = ({ sock := { connection := none
                     batch := { maxCount := 8, messages := [⟨"a", 0, 0⟩, ⟨"b", 0, 1⟩], closed := false, lastFlushTime := 0 }
                     protocol := "tcp", address := ":5880", batchTimeout := 5, batchMaxCount := 8
                     batchFlushCount := 4, bufferSizeByte := 1024, acknowledge := "OK" }
           written := [], writeAttempts := [], dropped := [], closedConns := [] ++ [3], workerDone := false }, false) ∧
    (∃ k, k ≤ ([⟨"a", 0, 0⟩, ⟨"b", 0, 1⟩] : List Message).length ∧
      (SocketState.sendBatch none (fun _ => false) true
        { sock := { connection := some 3
                    batch := { maxCount := 8, messages := [⟨"a", 0, 0⟩, ⟨"b", 0, 1⟩], closed := false, lastFlushTime := 0 }
                    protocol := "tcp", address := ":5880", batchTimeout := 5, batchMaxCount := 8
                    batchFlushCount := 4, bufferSizeByte := 1024, acknowledge := "OK" }
          written := [], writeAttempts := [], dropped := [], closedConns := [], workerDone := false } 5).writeAttempts
        = [] ++ ([⟨"a", 0, 0⟩, ⟨"b", 0, 1⟩] : List Message).take k) ∧
    SocketState.sendBatch none (fun _ => false) true
      { sock := { connection := none
                  batch := { maxCount := 8, messages := [⟨"a", 0, 0⟩, ⟨"b", 0, 1⟩], closed := false, lastFlushTime := 0 }
                  protocol := "tcp", address := ":5880", batchTimeout := 5, batchMaxCount := 8
                  batchFlushCount := 4, bufferSizeByte := 1024, acknowledge := "OK" }
        written := [], writeAttempts := [], dropped := [], closedConns := [], workerDone := false } 5
      = { sock := { connection := none
                    batch := { maxCount := 8, messages := [⟨"a", 0, 0⟩, ⟨"b", 0, 1⟩], closed := false, lastFlushTime := 0 }
                    protocol := "tcp", address := ":5880", batchTimeout := 5, batchMaxCount := 8
                    batchFlushCount := 4, bufferSizeByte := 1024, acknowledge := "OK" }
          written := [], writeAttempts := [], dropped := [], closedConns := [], workerDone := false } ∧
    SocketState.sendBatch (some 9) (fun _ => false) true
      { sock := { connection := none
                  batch := { maxCount := 8, messages := [⟨"a", 0, 0⟩, ⟨"b", 0, 1⟩], closed := false, lastFlushTime := 0 }
                  protocol := "tcp", address := ":5880", batchTimeout := 5, batchMaxCount := 8
                  batchFlushCount := 4, bufferSizeByte := 1024, acknowledge := "OK" }
        written := [], writeAttempts := [], dropped := [], closedConns := [], workerDone := false } 5
      = List.foldl
          (if true then SocketState.assemblyWrite (fun _ => false) else SocketState.assemblyFlush)
          { sock := { connection := some 9
                      batch := { maxCount := 8, messages := [], closed := false, lastFlushTime := 5 }
                      protocol := "tcp", address := ":5880", batchTimeout := 5, batchMaxCount := 8
                      batchFlushCount := 4, bufferSizeByte := 1024, acknowledge := "OK" }
            written := [], writeAttempts := [], dropped := [], closedConns := [], workerDone := false }
          [⟨"a", 0, 0⟩, ⟨"b", 0, 1⟩] :=
  ⟨(socket_write_error_invalidates_no_retry
      { sock := { connection := some 3
                  batch := { maxCount := 8, messages := [⟨"a", 0, 0⟩, ⟨"b", 0, 1⟩], closed := false, lastFlushTime := 0 }
                  protocol := "tcp", address := ":5880", batchTimeout := 5, batchMaxCount := 8
                  batchFlushCount := 4, bufferSizeByte := 1024, acknowledge := "OK" }
        written := [], writeAttempts := [], dropped := [], closedConns := [], workerDone := false }
      3 none (fun _ => false) true 5).1 rfl,
   (socket_write_error_invalidates_no_retry
      { sock := { connection := some 3
                  batch := { maxCount := 8, messages := [⟨"a", 0, 0⟩, ⟨"b", 0, 1⟩], closed := false, lastFlushTime := 0 }
                  protocol := "tcp", address := ":5880", batchTimeout := 5, batchMaxCount := 8
                  batchFlushCount := 4, bufferSizeByte := 1024, acknowledge := "OK" }
        written := [], writeAttempts := [], dropped := [], closedConns := [], workerDone := false }
      3 none (fun _ => false) true 5).2.1,
   (socket_write_error_invalidates_no_retry
      { sock := { connection := none
                  batch := { maxCount := 8, messages := [⟨"a", 0, 0⟩, ⟨"b", 0, 1⟩], closed := false, lastFlushTime := 0 }
                  protocol := "tcp", address := ":5880", batchTimeout := 5, batchMaxCount := 8
                  batchFlushCount := 4, bufferSizeByte := 1024, acknowledge := "OK" }
        written := [], writeAttempts := [], dropped := [], closedConns := [], workerDone := false }
      3 none (fun _ => false) true 5).2.2.1 rfl rfl,
   (socket_write_error_invalidates_no_retry
      { sock := { connection := none
                  batch := { maxCount := 8, messages := [⟨"a", 0, 0⟩, ⟨"b", 0, 1⟩], closed := false, lastFlushTime := 0 }
                  protocol := "tcp", address := ":5880", batchTimeout := 5, batchMaxCount := 8
                  batchFlushCount := 4, bufferSizeByte := 1024, acknowledge := "OK" }
        written := [], writeAttempts := [], dropped := [], closedConns := [], workerDone := false }
      3 (some 9) (fun _ => false) true 5).2.2.2 9 rfl rfl⟩

/-- C8 witness: `BatchMaxCount: 10` with `BatchFlushCount: 99` is
accepted and the flush count is clamped to the capacity 10. -/
theorem socket_configure_clamp_no_validation_witness :
    ∃ s, SocketModel.Configure
      { baseConfigureOk := true, batchMaxCount := some 10, batchFlushCount := some 99,
        batchTimeoutSec := none, connectionBufferSizeKB := none, acknowledge := some "OK",
        address := ":5880", protocol := "tcp" } = .ok s ∧
      s.batchMaxCount = (some 10 : Option Nat).getD 8192 ∧
      s.batchFlushCount = min ((some 99 : Option Nat).getD ((some 10 : Option Nat).getD 8192 / 2))
        ((some 10 : Option Nat).getD 8192) ∧
      s.batch = MessageBatch.new ((some 10 : Option Nat).getD 8192) 0 :=
  (socket_configure_clamp_no_validation
    { baseConfigureOk := true, batchMaxCount := some 10, batchFlushCount := some 99,
      batchTimeoutSec := none, connectionBufferSizeKB := none, acknowledge := some "OK",
      address := ":5880", protocol := "tcp" }).2 rfl
